import Mathlib

/-!
Verification of the buzz-analyzer heuristic scoring engine.

This file is a shallow embedding of the parts of the repository that the
spec makes claims about:

* `classify_opening_pattern`, `classify_category`, `has_story`,
  `calculate_buzz_score` and the emoji / bullet / CTA / emotion helpers
  from `analyze_posts.py`;
* `calculate_buzz_score_v2` and its factor helpers from `buzz_score_v2.py`;
* `filter_data` (keyword filter + per-account de-duplication) from
  `analyze_posts.py`;
* `normalize_df` and the insertion-time de-duplication loop of
  `import_file` from `import_csv.py`.

Texts are modelled as `List Char` (a Python `str` is a sequence of Unicode
code points).  The regular expressions in the source are all alternations
of literal keywords, character classes and adjacency patterns, and are
embedded as explicit substring / character-class searches.  `re.IGNORECASE`
is modelled by ASCII lower-casing (the keyword lists contain only ASCII
letters and Japanese characters, so exotic Unicode case folding never
changes which keyword matches).  Python `int(a / b)` on the non-negative
quantities that occur here is modelled by `Nat` floor division.
-/

/-! ### Character classes -/

/-- ASCII lower-casing of a single character; models the effect of
`re.IGNORECASE` on the ASCII letters appearing in the keyword lists. -/
def lowerAscii (c : Char) : Char :=
  if 0x41 ≤ c.toNat ∧ c.toNat ≤ 0x5A then Char.ofNat (c.toNat + 0x20) else c

/-- The regex class `[0-9]`. -/
def isAsciiDigit (c : Char) : Bool :=
  decide (0x30 ≤ c.toNat ∧ c.toNat ≤ 0x39)

/-- The regex class `[０-９]` (full-width digits U+FF10 to U+FF19). -/
def isFullDigit (c : Char) : Bool :=
  decide (0xFF10 ≤ c.toNat ∧ c.toNat ≤ 0xFF19)

/-- The regex class `[①-➓]`: every code point from U+2460 (①) to
U+2793 (➓).  Note that this interval also contains the dingbat block. -/
def isCircledDigit (c : Char) : Bool :=
  decide (0x2460 ≤ c.toNat ∧ c.toNat ≤ 0x2793)

/-- The character class of `EMOJI_PATTERN` in `analyze_posts.py`. -/
def isEmojiChar (c : Char) : Bool :=
  decide ((0x1F600 ≤ c.toNat ∧ c.toNat ≤ 0x1F64F) ∨
    (0x1F300 ≤ c.toNat ∧ c.toNat ≤ 0x1F5FF) ∨
    (0x1F680 ≤ c.toNat ∧ c.toNat ≤ 0x1F6FF) ∨
    (0x1F1E0 ≤ c.toNat ∧ c.toNat ≤ 0x1F1FF) ∨
    (0x2702 ≤ c.toNat ∧ c.toNat ≤ 0x27B0) ∨
    (0x1F900 ≤ c.toNat ∧ c.toNat ≤ 0x1F9FF) ∨
    (0x1FA00 ≤ c.toNat ∧ c.toNat ≤ 0x1FA6F) ∨
    (0x1FA70 ≤ c.toNat ∧ c.toNat ≤ 0x1FAFF) ∨
    (0x2600 ≤ c.toNat ∧ c.toNat ≤ 0x26FF) ∨
    (0xFE00 ≤ c.toNat ∧ c.toNat ≤ 0xFE0F) ∨
    c.toNat = 0x200D)

/-- Python regex `\s` (Unicode whitespace, as used by `str.strip` and the
bullet pattern). -/
def isPySpace (c : Char) : Bool :=
  decide (c.toNat = 0x20 ∨ (0x09 ≤ c.toNat ∧ c.toNat ≤ 0x0D) ∨
    (0x1C ≤ c.toNat ∧ c.toNat ≤ 0x1F) ∨ c.toNat = 0x85 ∨ c.toNat = 0xA0 ∨
    c.toNat = 0x1680 ∨ (0x2000 ≤ c.toNat ∧ c.toNat ≤ 0x200A) ∨
    c.toNat = 0x2028 ∨ c.toNat = 0x2029 ∨ c.toNat = 0x202F ∨
    c.toNat = 0x205F ∨ c.toNat = 0x3000)

/-! ### Substring search -/

/-- `isLeading n h` holds when `n` is an initial segment of `h`. -/
def isLeading : List Char → List Char → Bool
  | [], _ => true
  | _ :: _, [] => false
  | a :: as, b :: bs => a == b && isLeading as bs

/-- `containsSub n h`: the literal keyword `n` occurs somewhere in `h`
(Python `re.search` on a literal alternative, or the `in` operator). -/
def containsSub (needle : List Char) : List Char → Bool
  | [] => needle.isEmpty
  | c :: rest => isLeading needle (c :: rest) || containsSub needle rest

/-- `re.search` over an alternation of literal keywords. -/
def containsAny (needles : List (List Char)) (hay : List Char) : Bool :=
  needles.any fun n => containsSub n hay

/-- Search for a single character. -/
def containsChar (c : Char) (hay : List Char) : Bool :=
  hay.any fun d => d == c

/-- `digitThen isDigit units text`: the regex `[digits]+[units]`, i.e. some
digit immediately followed by a unit character occurs in `text`. -/
def digitThen (isDigit : Char → Bool) (units : List Char) : List Char → Bool
  | [] => false
  | [_] => false
  | a :: b :: rest =>
    (isDigit a && units.contains b) || digitThen isDigit units (b :: rest)

/-- One step of maximal-run counting: `countRunsGo p inside l` counts the
runs of `p`-characters in `l`, where `inside` records whether the previous
character satisfied `p`. -/
def countRunsGo (p : Char → Bool) : Bool → List Char → Nat
  | _, [] => 0
  | inside, c :: rest =>
    (if p c && !inside then 1 else 0) + countRunsGo p (p c) rest

/-- Number of maximal runs of `p`-characters; models
`len(PATTERN.findall(text))` for a regex of the shape `[class]+`. -/
def countRuns (p : Char → Bool) (l : List Char) : Nat :=
  countRunsGo p false l

/-- Convert a list of string literals to keyword lists. -/
def kws (ss : List String) : List (List Char) := ss.map fun s => s.data

/-- `text.split("\n")[0] if text else ""`. -/
def firstLine (text : List Char) : List Char :=
  text.takeWhile fun c => c != '\n'

/-! ### `classify_opening_pattern` (analyze_posts.py, lines 148 to 166) -/

/-- The seven opening-pattern classes returned by
`classify_opening_pattern`: 疑問形, 数字提示, 煽り, 共感, 断定形,
呼びかけ, その他. -/
inductive OpeningPattern where
  | question
  | digitLead
  | provoke
  | empathy
  | assertive
  | callout
  | other
deriving DecidableEq

/-- Regex `[？?]` on the first line. -/
def hasQuestionMark (l : List Char) : Bool :=
  containsChar '？' l || containsChar '?' l

/-- Regex `^[0-9①-➓]|[0-9]+つ|[0-9]+個|[0-9]+選` on the first line. -/
def hasDigitLead (l : List Char) : Bool :=
  (match l with
   | [] => false
   | c :: _ => isAsciiDigit c || isCircledDigit c) ||
  digitThen isAsciiDigit ['つ', '個', '選'] l

/-- Keywords of the 煽り rule: `は？|まじで|やばい|最悪|ありえない`. -/
def aoriWords : List (List Char) :=
  kws ["は？", "まじで", "やばい", "最悪", "ありえない"]

/-- Keywords of the 共感 rule: `わかる|共感|同じ|あるある`. -/
def kyokanWords : List (List Char) :=
  kws ["わかる", "共感", "同じ", "あるある"]

/-- Keywords of the 断定形 rule: `です|ます|である|だ。`. -/
def danteiWords : List (List Char) :=
  kws ["です", "ます", "である", "だ。"]

/-- Keywords of the 呼びかけ rule: `みなさん|あなた|皆さん`. -/
def yobikakeWords : List (List Char) :=
  kws ["みなさん", "あなた", "皆さん"]

/-- The 煽り search (`re.IGNORECASE` in the source, modelled by searching
the lower-cased line, a no-op for this all-Japanese keyword list). -/
def hasProvokeWord (l : List Char) : Bool :=
  containsAny aoriWords (l.map lowerAscii)

/-- The 共感 search (case-insensitive in the source). -/
def hasEmpathyWord (l : List Char) : Bool :=
  containsAny kyokanWords (l.map lowerAscii)

/-- The 断定形 search (case-sensitive in the source). -/
def hasAssertiveWord (l : List Char) : Bool :=
  containsAny danteiWords l

/-- The 呼びかけ search (case-insensitive in the source). -/
def hasCalloutWord (l : List Char) : Bool :=
  containsAny yobikakeWords (l.map lowerAscii)

/-- `classify_opening_pattern(first_line)`: the if/elif chain of
`analyze_posts.py`. -/
def classify_opening_pattern (first_line : List Char) : OpeningPattern :=
  if first_line = [] then .other
  else if hasQuestionMark first_line then .question
  else if hasDigitLead first_line then .digitLead
  else if hasProvokeWord first_line then .provoke
  else if hasEmpathyWord first_line then .empathy
  else if hasAssertiveWord first_line then .assertive
  else if hasCalloutWord first_line then .callout
  else .other

/-! ### `classify_category` (analyze_posts.py, lines 291 to 319) -/

/-- The categories returned by `classify_category`: 実績報告系,
ノウハウ系, 体験談系, 問題提起系, ツール紹介系, ニュース系, その他. -/
inductive Category where
  | achievement
  | howto
  | experience
  | problem
  | tool
  | news
  | other
deriving DecidableEq

/-- 実績報告系 keywords. -/
def achievementWords : List (List Char) :=
  kws ["達成", "収益", "稼げた", "稼いだ", "成功", "実績", "儲かった",
       "〜万円", "月収", "年収", "売上", "報酬", "利益"]

/-- ノウハウ系 keywords. -/
def howtoWords : List (List Char) :=
  kws ["方法", "やり方", "コツ", "手順", "ステップ", "テクニック", "攻略",
       "マニュアル", "ガイド", "〜する方法", "〜のやり方"]

/-- 体験談系 keywords. -/
def experienceWords : List (List Char) :=
  kws ["私が", "僕が", "自分が", "実際に", "やってみた", "試してみた",
       "体験", "経験", "〜したら", "〜してみた"]

/-- 問題提起系 keywords. -/
def problemWords : List (List Char) :=
  kws ["は？", "問題", "危険", "注意", "警告", "【悲報】", "〜すぎる",
       "ヤバい", "おかしい"]

/-- ツール紹介系 keywords; the ASCII alternatives `AI|Claude|ChatGPT|GPT`
are stored lower-cased because the search is case-insensitive. -/
def toolWords : List (List Char) :=
  kws ["ツール", "アプリ", "サービス", "プラグイン", "拡張機能",
       "おすすめ", "紹介", "ai", "claude", "chatgpt", "gpt"]

/-- ニュース系 keywords. -/
def newsWords : List (List Char) :=
  kws ["発表", "リリース", "開始", "開催", "速報", "最新", "ニュース", "公開"]

/-- `classify_category(text)`: first matching rule wins, default その他.
All six searches carry `re.IGNORECASE`, modelled by lower-casing. -/
def classify_category (text : List Char) : Category :=
  let lt := text.map lowerAscii
  if containsAny achievementWords lt then .achievement
  else if containsAny howtoWords lt then .howto
  else if containsAny experienceWords lt then .experience
  else if containsAny problemWords lt then .problem
  else if containsAny toolWords lt then .tool
  else if containsAny newsWords lt then .news
  else .other


/-! ### Shared scorer helpers (analyze_posts.py) -/

/-- `has_story(text)` (analyze_posts.py, lines 235 to 247): any of four
keyword groups occurs; case-insensitive, so the text is lower-cased and
the ASCII keywords `before`/`after` are stored lower-cased. -/
def has_story (text : List Char) : Bool :=
  let lt := text.map lowerAscii
  [kws ["まず", "次に", "そして", "最後に"],
   kws ["before", "after", "→"],
   kws ["昔", "以前", "最初", "今では", "現在"],
   kws ["私", "僕", "自分", "実際に", "やってみた"]].any
    fun pat => containsAny pat lt

/-- The five CTA pattern groups of `calculate_buzz_score` (and
`analyze_cta`); case-insensitive, so `RT` is stored lower-cased. -/
def ctaPatterns : List (List (List Char)) :=
  [kws ["いいね", "👍"],
   kws ["保存", "ブックマーク"],
   kws ["フォロー"],
   kws ["リポスト", "rt", "シェア", "拡散"],
   kws ["コメント", "返信", "教えて"]]

/-- `has_cta` test inside `calculate_buzz_score`: any CTA group matches. -/
def has_cta (text : List Char) : Bool :=
  ctaPatterns.any fun pat => containsAny pat (text.map lowerAscii)

/-- The four emotion pattern groups of `calculate_buzz_score`. -/
def emotionPatterns : List (List (List Char)) :=
  [kws ["チャンス", "可能性", "稼げる", "儲かる", "成功", "達成", "実現", "できる"],
   kws ["まさか", "びっくり", "驚き", "すごい", "やばい"],
   kws ["わかる", "そうそう", "あるある", "同じ", "私も"],
   kws ["危険", "怖い", "リスク", "失敗", "損", "ヤバい", "最悪"]]

/-- Number of emotion pattern groups that match the text. -/
def emotion_count (text : List Char) : Nat :=
  emotionPatterns.countP fun pat => containsAny pat (text.map lowerAscii)

/-- `len(EMOJI_PATTERN.findall(text))`: the pattern is `[class]+`, so this
is the number of maximal runs of emoji characters. -/
def emoji_runs (text : List Char) : Nat :=
  countRuns isEmojiChar text

/-- A character of the bullet class `[・\-\*①-➓1-9]`. -/
def isBulletChar (c : Char) : Bool :=
  c == '・' || c == '-' || c == '*' || isCircledDigit c ||
    decide (0x31 ≤ c.toNat ∧ c.toNat ≤ 0x39)

/-- Scan for the multiline regex `^[・\-\*①-➓1-9]\s`: a bullet character
at the start of a line followed by a whitespace character.  `atStart`
records whether the current position is a line start. -/
def bulletScan : Bool → List Char → Bool
  | _, [] => false
  | atStart, c :: rest =>
    (atStart && isBulletChar c &&
      (match rest with
       | [] => false
       | d :: _ => isPySpace d)) ||
    bulletScan (c == '\n') rest

/-- `bullet_pattern.search(text)` of `calculate_buzz_score`. -/
def has_bullets (text : List Char) : Bool :=
  bulletScan true text

/-! ### Score results -/

/-- Names of the factor entries produced by the two scorers.  They stand
for the Japanese keys of the Python `factors` dict: 冒頭パターン,
テキスト最適化, カテゴリ, 感情トリガー, CTA, ストーリー性, 絵文字・書式,
読みやすさ (v1) and 文字数, 具体的数字, 簡潔さ, 絵文字, `_hour` (v2). -/
inductive FactorKey where
  | opening
  | textOpt
  | category
  | emotion
  | cta
  | story
  | emojiFmt
  | readability
  | charCount
  | numbers
  | concise
  | emojiCount
  | hourRef
deriving DecidableEq

/-- Models Python `key.startswith("_")`: of all keys ever inserted, only
`_hour` begins with an underscore. -/
def FactorKey.isRef : FactorKey → Bool
  | .hourRef => true
  | _ => false

/-- The `{"total_score": ..., "factors": {...}}` dict returned by both
scorers.  Factor values are `Int` because the `_hour` entry can be `-1`. -/
structure ScoreResult where
  total_score : Nat
  factors : List (FactorKey × Int)
deriving DecidableEq

/-- Value of one named factor of a result (0 if absent). -/
def factorValue (r : ScoreResult) (k : FactorKey) : Int :=
  (r.factors.lookup k).getD 0

/-- Sum of all values of the `factors` dict. -/
def sumFactors (r : ScoreResult) : Int :=
  (r.factors.map fun kv => kv.2).sum

/-- Sum of the factor values whose key does not start with an underscore
(the filter used by the report code in `buzz_score_v2.py`). -/
def sumPublicFactors (r : ScoreResult) : Int :=
  ((r.factors.filter fun kv => !kv.1.isRef).map fun kv => kv.2).sum

/-! ### `calculate_buzz_score` (analyze_posts.py, lines 629 to 718) -/

/-- v1 opening-pattern point table:
数字提示 20, 疑問形 16, 煽り 14, 共感 14, 呼びかけ 12, 断定形 8,
その他 5 (the `.get` default 5 is never reached: every classifier output
is a key of the dict). -/
def pattern_scores (p : OpeningPattern) : Nat :=
  match p with
  | .digitLead => 20
  | .question => 16
  | .provoke => 14
  | .empathy => 14
  | .callout => 12
  | .assertive => 8
  | .other => 5

/-- v1 text-length factor with the default parameters
`optimal_min = 100`, `optimal_max = 300` (the claims concern the default
`score_params=None` invocation). -/
def text_opt_score (length : Nat) : Nat :=
  if 100 ≤ length ∧ length ≤ 300 then 15
  else if length < 100 then max 3 (15 * length / 100)
  else max 3 (15 * 300 / length)

/-- v1 category point table: 実績報告系 15, ノウハウ系 13, 問題提起系 12,
体験談系 11, ツール紹介系 10, ニュース系 8, その他 5 (again the `.get`
default 5 is unreachable). -/
def cat_scores (c : Category) : Nat :=
  match c with
  | .achievement => 15
  | .howto => 13
  | .problem => 12
  | .experience => 11
  | .tool => 10
  | .news => 8
  | .other => 5

/-- v1 emoji factor: 1 to 3 runs give 10, none give 4, otherwise 6. -/
def emoji_score_v1 (n : Nat) : Nat :=
  if 1 ≤ n ∧ n ≤ 3 then 10 else if n = 0 then 4 else 6

/-- v1 readability factor: line-break portion plus bullet portion. -/
def readability_score (text : List Char) : Nat :=
  (if 3 ≤ text.count '\n' ∧ text.count '\n' ≤ 10 then 5
   else if 0 < text.count '\n' then 3 else 0) +
  (if has_bullets text then 5 else 0)

/-- `calculate_buzz_score(text)` with the default `score_params=None`. -/
def calculate_buzz_score (text : List Char) : ScoreResult :=
  let s1 := pattern_scores (classify_opening_pattern (firstLine text))
  let s2 := text_opt_score text.length
  let s3 := cat_scores (classify_category text)
  let s4 := min 10 (emotion_count text * 4)
  let s5 := if has_cta text then 10 else 0
  let s6 := if has_story text then 10 else 0
  let s7 := emoji_score_v1 (emoji_runs text)
  let s8 := readability_score text
  { total_score := s1 + s2 + s3 + s4 + s5 + s6 + s7 + s8,
    factors := [(.opening, (s1 : Int)), (.textOpt, (s2 : Int)),
                (.category, (s3 : Int)), (.emotion, (s4 : Int)),
                (.cta, (s5 : Int)), (.story, (s6 : Int)),
                (.emojiFmt, (s7 : Int)), (.readability, (s8 : Int))] }

/-! ### `calculate_buzz_score_v2` (buzz_score_v2.py, lines 29 to 142) -/

/-- v2 opening-pattern point table: 数字提示 25, 共感 18, 疑問形 12,
その他 10, 断定形 8, 煽り 6, 呼びかけ 5. -/
def pattern_scores_v2 (p : OpeningPattern) : Nat :=
  match p with
  | .digitLead => 25
  | .empathy => 18
  | .question => 12
  | .other => 10
  | .assertive => 8
  | .provoke => 6
  | .callout => 5

/-- v2 character-count factor, including the later `81 <= length <= 130`
override that assigns 13 points. -/
def length_score_v2 (length : Nat) : Nat :=
  let s := if length ≤ 80 then 20
           else if length ≤ 170 then 17
           else if length ≤ 220 then 10
           else if length ≤ 300 then 4
           else 2
  if 81 ≤ length ∧ length ≤ 130 then 13 else s

/-- v2 category point table: 体験談系 15, 問題提起系 15, ツール紹介系 10,
ノウハウ系 8, 実績報告系 7, その他 5; ニュース系 is not a key of the v2
dict, so it falls to the `.get` default 5. -/
def cat_scores_v2 (c : Category) : Nat :=
  match c with
  | .experience => 15
  | .problem => 15
  | .tool => 10
  | .howto => 8
  | .achievement => 7
  | .other => 5
  | .news => 5

/-- The unit character class
`[万円個件つ選ステップヶ月日時間分秒%％倍]` of the v2 concrete-number
regex (a character class: each of its characters individually). -/
def numberUnitChars : List Char := "万円個件つ選ステップヶ月日時間分秒%％倍".data

/-- `has_numbers`: regex `[0-9０-９]+[万円個件つ選ステップヶ月日時間分秒%％倍]`. -/
def has_numbers (text : List Char) : Bool :=
  digitThen (fun c => isAsciiDigit c || isFullDigit c) numberUnitChars text

/-- `has_money`: regex `[0-9０-９]+万|[0-9０-９]+円|月収|年収|売上`. -/
def has_money (text : List Char) : Bool :=
  digitThen (fun c => isAsciiDigit c || isFullDigit c) ['万', '円'] text ||
  containsAny (kws ["月収", "年収", "売上"]) text

/-- v2 concrete-number factor: `+10` for `has_numbers`, `+5` for
`has_money`, capped at 15. -/
def numbers_score (text : List Char) : Nat :=
  min 15 ((if has_numbers text then 10 else 0) + (if has_money text then 5 else 0))

/-- v2 conciseness factor from the number of line breaks. -/
def concise_score (lineBreaks : Nat) : Nat :=
  if lineBreaks ≤ 3 then 10
  else if lineBreaks ≤ 7 then 7
  else if lineBreaks ≤ 12 then 4
  else 1

/-- v2 emoji factor: none 10, one or two 6, otherwise 2. -/
def emoji_score_v2 (n : Nat) : Nat :=
  if n = 0 then 10 else if n ≤ 2 then 6 else 2

/-- Numeric value of a decimal-digit character (regex `\d`, modelled for
ASCII and full-width digits). -/
def digitVal (c : Char) : Option Nat :=
  if isAsciiDigit c then some (c.toNat - 0x30)
  else if isFullDigit c then some (c.toNat - 0xFF10)
  else none

/-- Greedy two-digit attempt of `(\d{1,2}):\d{2}` at one position. -/
def twoDigitHour (va : Nat) (rest : List Char) : Option Nat :=
  match rest with
  | b :: ':' :: c :: d :: _ =>
    match digitVal b, digitVal c, digitVal d with
    | some vb, some _, some _ => some (10 * va + vb)
    | _, _, _ => none
  | _ => none

/-- One-digit fallback of `(\d{1,2}):\d{2}` at one position. -/
def oneDigitHour (va : Nat) (rest : List Char) : Option Nat :=
  match rest with
  | ':' :: c :: d :: _ =>
    match digitVal c, digitVal d with
    | some _, some _ => some va
    | _, _ => none
  | _ => none

/-- Match of `(\d{1,2}):\d{2}` anchored at the current position, trying
two digits first (greedy `{1,2}`), then one. -/
def hourAt (l : List Char) : Option Nat :=
  match l with
  | [] => none
  | a :: rest =>
    match digitVal a with
    | none => none
    | some va =>
      match twoDigitHour va rest with
      | some h => some h
      | none => oneDigitHour va rest

/-- `re.search(r'(\d{1,2}):\d{2}', s)` followed by `int(m.group(1))`:
leftmost match wins; `-1` when there is no match. -/
def find_hour : List Char → Int
  | [] => -1
  | c :: rest =>
    match hourAt (c :: rest) with
    | some h => (h : Int)
    | none => find_hour rest

/-- `calculate_buzz_score_v2(text, post_datetime)`.  `post_datetime` is an
optional string; `if post_datetime:` is false for `None` and for the empty
string, in which case the `_hour` entry stays `-1`. -/
def calculate_buzz_score_v2 (text : List Char)
    (post_datetime : Option (List Char)) : ScoreResult :=
  let s1 := pattern_scores_v2 (classify_opening_pattern (firstLine text))
  let s2 := length_score_v2 text.length
  let s3 := cat_scores_v2 (classify_category text)
  let s4 := numbers_score text
  let s5 := concise_score (text.count '\n')
  let s6 := emoji_score_v2 (emoji_runs text)
  let s7 := if has_story text then 5 else 0
  let hour : Int :=
    match post_datetime with
    | none => -1
    | some s => if s = [] then -1 else find_hour s
  { total_score := s1 + s2 + s3 + s4 + s5 + s6 + s7,
    factors := [(.opening, (s1 : Int)), (.charCount, (s2 : Int)),
                (.category, (s3 : Int)), (.numbers, (s4 : Int)),
                (.concise, (s5 : Int)), (.emojiCount, (s6 : Int)),
                (.story, (s7 : Int)), (.hourRef, hour)] }


/-! ### `filter_data` (analyze_posts.py, lines 22 to 56) -/

/-- One row of the buzz-post table, with the columns `filter_data`
touches: ユーザー名, 本文, いいね数. -/
structure Row where
  user : List Char
  text : List Char
  likes : Int
deriving DecidableEq

/-- The `exclude_keywords` list of `filter_keywords`. -/
def exclude_keywords : List (List Char) :=
  kws ["著作権", "版権", "海賊版", "収益化停止", "収益化が停止",
       "剥奪", "侵害", "インプレゾンビ"]

/-- `should_exclude(text)`: some excluded keyword occurs in the text. -/
def should_exclude (text : List Char) : Bool :=
  exclude_keywords.any fun k => containsSub k text

/-- `filter_keywords(df)`: drop the rows whose text matches. -/
def filter_keywords (rows : List Row) : List Row :=
  rows.filter fun r => !should_exclude r.text

/-- Insertion step of a descending sort by いいね数 (stable: a row moves
ahead of another only when its like count is strictly larger). -/
def insertDesc (r : Row) : List Row → List Row
  | [] => [r]
  | x :: xs => if x.likes < r.likes then r :: x :: xs else x :: insertDesc r xs

/-- `df.sort_values("いいね数", ascending=False)`; the relative order of
rows with equal like counts is irrelevant to the claims. -/
def sortDesc : List Row → List Row
  | [] => []
  | x :: xs => insertDesc x (sortDesc xs)

/-- `df.drop_duplicates(subset=["ユーザー名"], keep="first")`: keep the
first row of each user, in order. -/
def dedupByUser (seen : List (List Char)) : List Row → List Row
  | [] => []
  | r :: rest =>
    if seen.contains r.user then dedupByUser seen rest
    else r :: dedupByUser (r.user :: seen) rest

/-- `filter_data(df)`: keyword filter, sort by like count descending, then
drop duplicate users keeping the first (highest-likes) row.  Returns
`(df_filtered, original_count, total_excluded)`. -/
def filter_data (rows : List Row) : List Row × Nat × Nat :=
  let f := dedupByUser [] (sortDesc (filter_keywords rows))
  (f, rows.length, rows.length - f.length)

/-! ### `normalize_df` and the `import_file` insertion loop (import_csv.py) -/

/-- A cell of an ingested DataFrame: a number, a string, or a missing
value (pandas `NaN`, whose `str()` is the string `nan`). -/
inductive Cell where
  | num (n : Int)
  | str (s : List Char)
  | null
deriving DecidableEq

/-- An ingested DataFrame: its column names and its rows, each row an
association list from column name to cell. -/
structure RawDF where
  cols : List (List Char)
  rows : List (List (List Char × Cell))

/-- Aliases accepted for the required text column. -/
def text_aliases : List (List Char) := kws ["本文", "テキスト", "text"]

/-- Aliases accepted for the account column. -/
def account_aliases : List (List Char) := kws ["ユーザー名", "@", "account"]

/-- Aliases accepted for the like-count column. -/
def likes_aliases : List (List Char) := kws ["いいね数", "likes"]

/-- Aliases accepted for the retweet-count column. -/
def retweets_aliases : List (List Char) := kws ["リポスト数", "RT数", "retweets"]

/-- Aliases accepted for the reply-count column. -/
def replies_aliases : List (List Char) := kws ["リプライ数", "replies"]

/-- Aliases accepted for the impressions column. -/
def impressions_aliases : List (List Char) := kws ["imp", "impressions"]

/-- Aliases accepted for the date column. -/
def date_aliases : List (List Char) := kws ["投稿日時", "date"]

/-- First alias present among the DataFrame columns (the `for c in [...]`
loops building `col_map`). -/
def firstAlias (aliases cols : List (List Char)) : Option (List Char) :=
  aliases.find? fun a => cols.contains a

/-- `row.get(col_map.get(key, ""), default)`: look the column up in the
row, falling back to the empty column name when the alias is absent, and
to `default` when the row has no such column. -/
def rowGet (row : List (List Char × Cell)) (col : Option (List Char))
    (default : Cell) : Cell :=
  match row.lookup (col.getD []) with
  | some v => v
  | none => default

/-- Decimal digits of a natural number. -/
def natDigits : Nat → List Char
  | 0 => ['0']
  | n + 1 =>
    let rec go : Nat → List Char → List Char
      | 0, acc => acc
      | m + 1, acc =>
        go ((m + 1) / 10) (Char.ofNat (0x30 + (m + 1) % 10) :: acc)
    go (n + 1) []

/-- Python `str()` of an integer. -/
def intToChars (n : Int) : List Char :=
  if n < 0 then '-' :: natDigits n.natAbs else natDigits n.natAbs

/-- Python `str(cell)`; `str()` of pandas `NaN` is the string `nan`. -/
def cellToStr : Cell → List Char
  | .str s => s
  | .num n => intToChars n
  | .null => "nan".data

/-- Python truthiness of a cell value (`0` and the empty string are
falsy; `NaN` is truthy). -/
def cellFalsy : Cell → Bool
  | .num n => n == 0
  | .str s => s.isEmpty
  | .null => false

/-- `str(value or "")`. -/
def strOrEmpty (c : Cell) : List Char :=
  if cellFalsy c then [] else cellToStr c

/-- Python `str.strip()`. -/
def pyStrip (s : List Char) : List Char :=
  ((s.dropWhile isPySpace).reverse.dropWhile isPySpace).reverse

/-- Value of a string made of decimal digits, if it is one. -/
def digitsVal (l : List Char) : Option Nat :=
  if l ≠ [] ∧ l.all isAsciiDigit then
    some (l.foldl (fun acc c => 10 * acc + (c.toNat - 0x30)) 0)
  else none

/-- Integer parse of a string (`pd.to_numeric` restricted to the integer
strings the claims need; non-numeric strings coerce to `NaN`, hence 0). -/
def parseIntOpt (s : List Char) : Option Int :=
  match s with
  | '-' :: rest => (digitsVal rest).map fun n => -(n : Int)
  | _ => (digitsVal s).map fun n => (n : Int)

/-- `_to_int(val)`: numeric conversion with 0 on failure. -/
def to_int (c : Cell) : Int :=
  match c with
  | .num n => n
  | .str s => (parseIntOpt s).getD 0
  | .null => 0

/-- One normalized row of the `posts` table (the wall-clock `added_at`
column is not modelled). -/
structure NRow where
  account : List Char
  text : List Char
  likes : Int
  retweets : Int
  replies : Int
  impressions : Int
  date : List Char
  source_file : List Char
deriving DecidableEq

/-- `normalize_df(df, source_file)`: raises `ValueError` (modelled as
`Except.error` carrying the column list) when no text alias matches;
otherwise builds the row list, skipping rows whose stripped text is empty
or the string `nan`. -/
def normalize_df (df : RawDF) (source_file : List Char) :
    Except (List (List Char)) (List NRow) :=
  match firstAlias text_aliases df.cols with
  | none => .error df.cols
  | some tcol =>
    let acol := firstAlias account_aliases df.cols
    let lcol := firstAlias likes_aliases df.cols
    let rcol := firstAlias retweets_aliases df.cols
    let pcol := firstAlias replies_aliases df.cols
    let icol := firstAlias impressions_aliases df.cols
    let dcol := firstAlias date_aliases df.cols
    .ok (df.rows.filterMap fun row =>
      let text := pyStrip (strOrEmpty (rowGet row (some tcol) (.str [])))
      if text = [] ∨ text = "nan".data then none
      else some
        { account := strOrEmpty (rowGet row acol (.str [])),
          text := text,
          likes := to_int (rowGet row lcol (.num 0)),
          retweets := to_int (rowGet row rcol (.num 0)),
          replies := to_int (rowGet row pcol (.num 0)),
          impressions := to_int (rowGet row icol (.num 0)),
          date := strOrEmpty (rowGet row dcol (.str [])),
          source_file := source_file })

/-- The insertion loop of `import_file` (import_csv.py, lines 159 to 178):
a row is skipped when a row with the same text and account is already in
the database, so of two duplicate rows the first one wins.  `db` is the
set of `(text, account)` pairs already stored. -/
def insert_posts (db : List (List Char × List Char)) :
    List NRow → List NRow
  | [] => []
  | r :: rest =>
    if db.any fun p => p.1 == r.text && p.2 == r.account then
      insert_posts db rest
    else r :: insert_posts ((r.text, r.account) :: db) rest


/-- Characters that match `EMOJI_PATTERN` and lie outside the
U+2460 to U+2793 interval that the `[①-➓]` class of the digit rule also
matches: the unambiguous emoji.  (The dingbat blocks U+2600 to U+26FF and
U+2702 to U+27B0 are counted as emoji by `EMOJI_PATTERN` but are also
matched by `[①-➓]`.) -/
def emojiPlain (c : Char) : Bool :=
  isEmojiChar c && !isCircledDigit c

/-! ## Helper lemmas: per-factor bounds -/

theorem pattern_scores_bounds (p : OpeningPattern) :
    5 ≤ pattern_scores p ∧ pattern_scores p ≤ 20 := by
  cases p <;> exact ⟨by decide, by decide⟩

theorem text_opt_score_bounds (l : Nat) :
    3 ≤ text_opt_score l ∧ text_opt_score l ≤ 15 := by
  unfold text_opt_score
  split_ifs with h1 h2
  · exact ⟨by omega, by omega⟩
  · refine ⟨le_max_left _ _, max_le (by omega) ?_⟩
    have h3 : 15 * l ≤ 1485 := by omega
    calc 15 * l / 100 ≤ 1485 / 100 := Nat.div_le_div_right h3
    _ ≤ 15 := by norm_num
  · refine ⟨le_max_left _ _, max_le (by omega) ?_⟩
    have hl : 301 ≤ l := by omega
    calc 15 * 300 / l ≤ 15 * 300 / 301 := Nat.div_le_div_left hl (by omega)
    _ ≤ 15 := by norm_num

theorem cat_scores_bounds (c : Category) :
    5 ≤ cat_scores c ∧ cat_scores c ≤ 15 := by
  cases c <;> exact ⟨by decide, by decide⟩

theorem emoji_score_v1_bounds (n : Nat) :
    4 ≤ emoji_score_v1 n ∧ emoji_score_v1 n ≤ 10 := by
  unfold emoji_score_v1
  split_ifs <;> omega

theorem readability_score_le (text : List Char) :
    readability_score text ≤ 10 := by
  unfold readability_score
  split_ifs <;> omega

theorem pattern_scores_v2_bounds (p : OpeningPattern) :
    5 ≤ pattern_scores_v2 p ∧ pattern_scores_v2 p ≤ 25 := by
  cases p <;> exact ⟨by decide, by decide⟩

theorem length_score_v2_bounds (l : Nat) :
    2 ≤ length_score_v2 l ∧ length_score_v2 l ≤ 20 := by
  simp only [length_score_v2]
  split_ifs <;> omega

theorem cat_scores_v2_bounds (c : Category) :
    5 ≤ cat_scores_v2 c ∧ cat_scores_v2 c ≤ 15 := by
  cases c <;> exact ⟨by decide, by decide⟩

theorem numbers_score_le (text : List Char) : numbers_score text ≤ 15 :=
  Nat.min_le_left _ _

theorem concise_score_bounds (n : Nat) :
    1 ≤ concise_score n ∧ concise_score n ≤ 10 := by
  unfold concise_score
  split_ifs <;> omega

theorem emoji_score_v2_bounds (n : Nat) :
    2 ≤ emoji_score_v2 n ∧ emoji_score_v2 n ≤ 10 := by
  unfold emoji_score_v2
  split_ifs <;> omega

/-! ## Helper lemmas: factor lookups -/

theorem factorValue_v1_opening (t : List Char) :
    factorValue (calculate_buzz_score t) .opening =
      (pattern_scores (classify_opening_pattern (firstLine t)) : Int) := rfl

theorem factorValue_v1_textOpt (t : List Char) :
    factorValue (calculate_buzz_score t) .textOpt =
      (text_opt_score t.length : Int) := rfl

theorem factorValue_v1_category (t : List Char) :
    factorValue (calculate_buzz_score t) .category =
      (cat_scores (classify_category t) : Int) := rfl

theorem factorValue_v1_emojiFmt (t : List Char) :
    factorValue (calculate_buzz_score t) .emojiFmt =
      (emoji_score_v1 (emoji_runs t) : Int) := rfl

theorem factorValue_v2_opening (t : List Char) (pd : Option (List Char)) :
    factorValue (calculate_buzz_score_v2 t pd) .opening =
      (pattern_scores_v2 (classify_opening_pattern (firstLine t)) : Int) := rfl

theorem factorValue_v2_charCount (t : List Char) (pd : Option (List Char)) :
    factorValue (calculate_buzz_score_v2 t pd) .charCount =
      (length_score_v2 t.length : Int) := rfl

theorem factorValue_v2_category (t : List Char) (pd : Option (List Char)) :
    factorValue (calculate_buzz_score_v2 t pd) .category =
      (cat_scores_v2 (classify_category t) : Int) := rfl

theorem factorValue_v2_numbers (t : List Char) (pd : Option (List Char)) :
    factorValue (calculate_buzz_score_v2 t pd) .numbers =
      (numbers_score t : Int) := rfl

/-! ## C1 -/

/-- C1: for every string input the total score returned by the v1 scorer
`calculate_buzz_score` and by the v2 scorer `calculate_buzz_score_v2`
lies between 0 and 100 inclusive. -/
theorem total_score_in_range (text : List Char) (pd : Option (List Char)) :
    (0 ≤ (calculate_buzz_score text).total_score ∧
      (calculate_buzz_score text).total_score ≤ 100) ∧
    (0 ≤ (calculate_buzz_score_v2 text pd).total_score ∧
      (calculate_buzz_score_v2 text pd).total_score ≤ 100) := by
  have h1 := pattern_scores_bounds (classify_opening_pattern (firstLine text))
  have h2 := text_opt_score_bounds text.length
  have h3 := cat_scores_bounds (classify_category text)
  have h7 := emoji_score_v1_bounds (emoji_runs text)
  have h8 := readability_score_le text
  have g1 := pattern_scores_v2_bounds (classify_opening_pattern (firstLine text))
  have g2 := length_score_v2_bounds text.length
  have g3 := cat_scores_v2_bounds (classify_category text)
  have g4 := numbers_score_le text
  have g5 := concise_score_bounds (text.count '\n')
  have g6 := emoji_score_v2_bounds (emoji_runs text)
  simp only [calculate_buzz_score, calculate_buzz_score_v2]
  split_ifs <;> omega

/-! ## C10 -/

/-- C10: the v1 scorer has a positive floor: the opening factor is always
at least 5, the text-optimization factor at least 3, the category factor
at least 5 and the emoji factor at least 4, so the total is at least 17
for every input; the empty string attains exactly 17, and in particular
the v1 total is never 0. -/
theorem v1_total_floor (text : List Char) :
    5 ≤ factorValue (calculate_buzz_score text) .opening ∧
    3 ≤ factorValue (calculate_buzz_score text) .textOpt ∧
    5 ≤ factorValue (calculate_buzz_score text) .category ∧
    4 ≤ factorValue (calculate_buzz_score text) .emojiFmt ∧
    17 ≤ (calculate_buzz_score text).total_score ∧
    (calculate_buzz_score []).total_score = 17 ∧
    (calculate_buzz_score text).total_score ≠ 0 := by
  have h1 := pattern_scores_bounds (classify_opening_pattern (firstLine text))
  have h2 := text_opt_score_bounds text.length
  have h3 := cat_scores_bounds (classify_category text)
  have h7 := emoji_score_v1_bounds (emoji_runs text)
  refine ⟨?_, ?_, ?_, ?_, ?_, by decide, ?_⟩
  · rw [factorValue_v1_opening]; exact_mod_cast h1.1
  · rw [factorValue_v1_textOpt]; exact_mod_cast h2.1
  · rw [factorValue_v1_category]; exact_mod_cast h3.1
  · rw [factorValue_v1_emojiFmt]; exact_mod_cast h7.1
  · simp only [calculate_buzz_score]; omega
  · simp only [calculate_buzz_score]; omega

/-! ## C4 -/

/-- C4 counterexample: for the empty text (with no datetime), the sum of
the values of the v2 `factors` mapping is 54 while `total_score` is 55:
the `_hour` entry of `calculate_buzz_score_v2` holds `-1` and is not part
of the total, so the claimed identity fails as stated. -/
theorem v2_factors_sum_mismatch :
    sumFactors (calculate_buzz_score_v2 [] none) = 54 ∧
    (calculate_buzz_score_v2 [] none).total_score = 55 ∧
    factorValue (calculate_buzz_score_v2 [] none) .hourRef = -1 := by decide

/-- C4 amended: for every text the sum of the v1 `factors` values equals
the v1 `total_score`, and the sum of the v2 `factors` values over the
keys that do not start with an underscore (which excludes only the
`_hour` reference entry) equals the v2 `total_score`; neither scorer
applies any further clamp after summing. -/
theorem factors_sum_eq_total (text : List Char) (pd : Option (List Char)) :
    sumFactors (calculate_buzz_score text) =
      ((calculate_buzz_score text).total_score : Int) ∧
    sumPublicFactors (calculate_buzz_score_v2 text pd) =
      ((calculate_buzz_score_v2 text pd).total_score : Int) := by
  constructor
  · simp only [calculate_buzz_score, sumFactors, List.map_cons, List.map_nil,
      List.sum_cons, List.sum_nil]
    push_cast
    ring
  · simp only [calculate_buzz_score_v2, sumPublicFactors, FactorKey.isRef,
      List.filter, Bool.not_false, Bool.not_true, List.map_cons, List.map_nil,
      List.sum_cons, List.sum_nil]
    push_cast
    ring

/-! ## C2 -/

/-- C2 counterexample: the empty string does not fall to the
lowest-scoring bucket of every factor of `calculate_buzz_score_v2`: its
character-count factor is 20, the maximum of the v2 length table (whose
lowest bucket, reached at length 301, is worth 2), its conciseness and
emoji factors are also at their maxima, and its total is 55. -/
theorem empty_v2_not_minimal :
    factorValue (calculate_buzz_score_v2 [] none) .charCount = 20 ∧
    length_score_v2 301 = 2 ∧
    factorValue (calculate_buzz_score_v2 [] none) .concise = 10 ∧
    factorValue (calculate_buzz_score_v2 [] none) .emojiCount = 10 ∧
    (calculate_buzz_score_v2 [] none).total_score = 55 := by decide

/-- C2 amended: the scorers are total functions (never raise).  In v1 the
empty string receives the minimum possible points on every factor
(opening 5, text-optimization 3, category 5, emotion 0, CTA 0, story 0,
emoji 4, readability 0; total 17).  In v2 the empty string falls to the
その他 / zero bucket only on the opening, category, concrete-number and
story factors, while receiving the maximum bucket on the length,
conciseness and emoji factors (v2 rewards short, break-free, emoji-free
text), for a total of 55. -/
theorem empty_text_factor_profile :
    calculate_buzz_score [] =
      ⟨17, [(.opening, 5), (.textOpt, 3), (.category, 5), (.emotion, 0),
            (.cta, 0), (.story, 0), (.emojiFmt, 4), (.readability, 0)]⟩ ∧
    calculate_buzz_score_v2 [] none =
      ⟨55, [(.opening, 10), (.charCount, 20), (.category, 5), (.numbers, 0),
            (.concise, 10), (.emojiCount, 10), (.story, 0), (.hourRef, -1)]⟩ ∧
    (∀ p, 5 ≤ pattern_scores p) ∧ (∀ l, 3 ≤ text_opt_score l) ∧
    (∀ c, 5 ≤ cat_scores c) ∧ (∀ n, 4 ≤ emoji_score_v1 n) ∧
    (∀ l, length_score_v2 l ≤ 20) ∧ (∀ n, concise_score n ≤ 10) ∧
    (∀ n, emoji_score_v2 n ≤ 10) :=
  ⟨by decide, by decide,
   fun p => (pattern_scores_bounds p).1, fun l => (text_opt_score_bounds l).1,
   fun c => (cat_scores_bounds c).1, fun n => (emoji_score_v1_bounds n).1,
   fun l => (length_score_v2_bounds l).2, fun n => (concise_score_bounds n).2,
   fun n => (emoji_score_v2_bounds n).2⟩

/-! ## C3 -/

/-- C3 counterexample: the first line `3つ？` both starts with a digit
pattern and contains a question mark; `classify_opening_pattern` returns
疑問形, not the digit-led class, so the claimed priority order (digit
first, question second) is wrong for the code. -/
theorem digit_and_question_gives_question :
    hasDigitLead "3つ？".data = true ∧ hasQuestionMark "3つ？".data = true ∧
    classify_opening_pattern "3つ？".data = .question ∧
    classify_opening_pattern "3つ？".data ≠ .digitLead := by decide

/-- C3 amended: `classify_opening_pattern` tests its rule classes in the
priority order question mark, leading digit pattern, provocation words,
empathy words, sentence-final declarative forms, call-out words, with a
nonempty unmatched line (and the empty line) mapped to その他; so for
every first line that both starts with a digit pattern and contains a
question mark, the question class wins. -/
theorem classify_opening_priority (l : List Char) :
    (hasQuestionMark l = true → classify_opening_pattern l = .question) ∧
    (hasQuestionMark l = false → hasDigitLead l = true →
      classify_opening_pattern l = .digitLead) ∧
    (hasQuestionMark l = false → hasDigitLead l = false →
      hasProvokeWord l = true → classify_opening_pattern l = .provoke) ∧
    (hasQuestionMark l = false → hasDigitLead l = false →
      hasProvokeWord l = false → hasEmpathyWord l = true →
      classify_opening_pattern l = .empathy) ∧
    (hasQuestionMark l = false → hasDigitLead l = false →
      hasProvokeWord l = false → hasEmpathyWord l = false →
      hasAssertiveWord l = true → classify_opening_pattern l = .assertive) ∧
    (hasQuestionMark l = false → hasDigitLead l = false →
      hasProvokeWord l = false → hasEmpathyWord l = false →
      hasAssertiveWord l = false → hasCalloutWord l = true →
      classify_opening_pattern l = .callout) ∧
    (hasQuestionMark l = false → hasDigitLead l = false →
      hasProvokeWord l = false → hasEmpathyWord l = false →
      hasAssertiveWord l = false → hasCalloutWord l = false →
      classify_opening_pattern l = .other) := by
  by_cases hl : l = []
  · subst hl
    refine ⟨fun hq => ?_, fun _ hd => ?_, fun _ _ hp => ?_, fun _ _ _ he => ?_,
      fun _ _ _ _ ha => ?_, fun _ _ _ _ _ hc => ?_, fun _ _ _ _ _ _ => rfl⟩
    · exact absurd hq (by decide)
    · exact absurd hd (by decide)
    · exact absurd hp (by decide)
    · exact absurd he (by decide)
    · exact absurd ha (by decide)
    · exact absurd hc (by decide)
  · unfold classify_opening_pattern
    rw [if_neg hl]
    refine ⟨fun hq => ?_, fun hq hd => ?_, fun hq hd hp => ?_,
      fun hq hd hp he => ?_, fun hq hd hp he ha => ?_,
      fun hq hd hp he ha hc => ?_, fun hq hd hp he ha hc => ?_⟩
    · rw [if_pos hq]
    · rw [if_neg (by simp [hq]), if_pos hd]
    · rw [if_neg (by simp [hq]), if_neg (by simp [hd]), if_pos hp]
    · rw [if_neg (by simp [hq]), if_neg (by simp [hd]), if_neg (by simp [hp]),
        if_pos he]
    · rw [if_neg (by simp [hq]), if_neg (by simp [hd]), if_neg (by simp [hp]),
        if_neg (by simp [he]), if_pos ha]
    · rw [if_neg (by simp [hq]), if_neg (by simp [hd]), if_neg (by simp [hp]),
        if_neg (by simp [he]), if_neg (by simp [ha]), if_pos hc]
    · rw [if_neg (by simp [hq]), if_neg (by simp [hd]), if_neg (by simp [hp]),
        if_neg (by simp [he]), if_neg (by simp [ha]), if_neg (by simp [hc])]

/-- Witness for the C3 amended theorem at the line `3つ？`. -/
theorem classify_opening_priority_witness :
    classify_opening_pattern "3つ？".data = .question :=
  (classify_opening_priority "3つ？".data).1 (by decide)

/-! ## C6 -/

/-- Monotonicity of the v2 length table outside the inverted bucket. -/
theorem length_score_v2_mono (a b : Nat) (hle : a ≤ b)
    (hex : ¬(81 ≤ a ∧ a ≤ 130 ∧ 131 ≤ b ∧ b ≤ 170)) :
    length_score_v2 b ≤ length_score_v2 a := by
  simp only [length_score_v2]
  split_ifs <;> omega

/-- C6 counterexample: a 100-character text receives 13 length points
from `calculate_buzz_score_v2` while a longer, 150-character text
receives 17, so the length factor is not monotonically non-increasing. -/
theorem v2_length_not_monotone :
    (List.replicate 100 'あ').length < (List.replicate 150 'あ').length ∧
    factorValue (calculate_buzz_score_v2 (List.replicate 100 'あ') none)
      .charCount = 13 ∧
    factorValue (calculate_buzz_score_v2 (List.replicate 150 'あ') none)
      .charCount = 17 := by
  refine ⟨by simp, ?_, ?_⟩ <;>
    (rw [factorValue_v2_charCount, List.length_replicate]; decide)

/-- C6 amended: the v2 length factor is non-increasing in the text length
except across the inverted 81 to 130 bucket (13 points), which scores
below the 131 to 170 bucket (17 points): whenever the shorter text is not
in the 81 to 130 bucket with the longer one in the 131 to 170 bucket, the
shorter text receives at least as many length points. -/
theorem v2_length_factor_mono (t u : List Char) (pd1 pd2 : Option (List Char))
    (hle : t.length ≤ u.length)
    (hex : ¬(81 ≤ t.length ∧ t.length ≤ 130 ∧
      131 ≤ u.length ∧ u.length ≤ 170)) :
    factorValue (calculate_buzz_score_v2 u pd2) .charCount ≤
      factorValue (calculate_buzz_score_v2 t pd1) .charCount := by
  rw [factorValue_v2_charCount, factorValue_v2_charCount]
  exact_mod_cast length_score_v2_mono t.length u.length hle hex

/-- Witness for the C6 amended theorem: an empty text against a
200-character text. -/
theorem v2_length_factor_mono_witness :
    factorValue (calculate_buzz_score_v2 (List.replicate 200 'あ') none)
      .charCount ≤ factorValue (calculate_buzz_score_v2 [] none) .charCount :=
  v2_length_factor_mono [] (List.replicate 200 'あ') none none
    (by rw [List.length_replicate]; simp)
    (by rw [List.length_replicate]; simp)

/-! ## C7 -/

/-- C7 counterexample: the text 月収 contains a currency/income pattern
but no number followed by a unit, yet the concrete-number factor of
`calculate_buzz_score_v2` awards it 5 points, not 0. -/
theorem money_without_number_scores_five :
    has_money "月収".data = true ∧ has_numbers "月収".data = false ∧
    factorValue (calculate_buzz_score_v2 "月収".data none) .numbers = 5 := by
  decide

/-- C7 amended: the v2 concrete-number factor awards +10 for a number
followed by a unit word and, independently (not conditionally), +5 for a
currency/income pattern, capped at 15; in particular a text with a
currency/income pattern but no number-followed-by-unit earns 5 points. -/
theorem numbers_factor_rule (t : List Char) (pd : Option (List Char)) :
    (has_numbers t = true → has_money t = true →
      factorValue (calculate_buzz_score_v2 t pd) .numbers = 15) ∧
    (has_numbers t = true → has_money t = false →
      factorValue (calculate_buzz_score_v2 t pd) .numbers = 10) ∧
    (has_numbers t = false → has_money t = true →
      factorValue (calculate_buzz_score_v2 t pd) .numbers = 5) ∧
    (has_numbers t = false → has_money t = false →
      factorValue (calculate_buzz_score_v2 t pd) .numbers = 0) := by
  refine ⟨fun h1 h2 => ?_, fun h1 h2 => ?_, fun h1 h2 => ?_, fun h1 h2 => ?_⟩ <;>
    (rw [factorValue_v2_numbers]; simp [numbers_score, h1, h2])

/-- Witness for the C7 amended theorem at the text 月収. -/
theorem numbers_factor_rule_witness :
    factorValue (calculate_buzz_score_v2 "月収".data none) .numbers = 5 :=
  (numbers_factor_rule "月収".data none).2.2.1 (by decide) (by decide)

/-! ## Helper lemmas: keyword searches on emoji-only texts -/

theorem isLeading_subset (n : List Char) :
    ∀ h : List Char, isLeading n h = true → ∀ c ∈ n, c ∈ h := by
  induction n with
  | nil => intro h _ c hc; cases hc
  | cons a as ih =>
    intro h hlead c hc
    cases h with
    | nil => simp [isLeading] at hlead
    | cons b bs =>
      simp only [isLeading, Bool.and_eq_true, beq_iff_eq] at hlead
      obtain ⟨rfl, h2⟩ := hlead
      rcases List.mem_cons.mp hc with rfl | hmem
      · exact List.mem_cons_self _ _
      · exact List.mem_cons_of_mem _ (ih bs h2 c hmem)

theorem containsSub_subset (n : List Char) :
    ∀ h : List Char, containsSub n h = true → ∀ c ∈ n, c ∈ h := by
  intro h
  induction h with
  | nil =>
    intro hc c hcn
    simp only [containsSub, List.isEmpty_iff] at hc
    subst hc
    cases hcn
  | cons b bs ih =>
    intro hc c hcn
    simp only [containsSub, Bool.or_eq_true] at hc
    rcases hc with h1 | h2
    · exact isLeading_subset n (b :: bs) h1 c hcn
    · exact List.mem_cons_of_mem _ (ih h2 c hcn)

theorem containsSub_eq_false (n h : List Char) (p : Char → Bool)
    (hall : ∀ c ∈ h, p c = true) (hbad : n.any (fun c => !p c) = true) :
    containsSub n h = false := by
  by_contra hcon
  rw [Bool.not_eq_false] at hcon
  rcases List.any_eq_true.mp hbad with ⟨c, hcn, hpc⟩
  rw [Bool.not_eq_true'] at hpc
  rw [hall c (containsSub_subset n h hcon c hcn)] at hpc
  cases hpc

theorem containsAny_eq_false (kwl : List (List Char)) (h : List Char)
    (p : Char → Bool) (hall : ∀ c ∈ h, p c = true)
    (hbad : kwl.all (fun n => n.any fun c => !p c) = true) :
    containsAny kwl h = false := by
  unfold containsAny
  refine List.any_eq_false.mpr fun n hn => ?_
  rw [containsSub_eq_false n h p hall (List.all_eq_true.mp hbad n hn)]
  decide

theorem containsChar_eq_false (q : Char) (h : List Char) (p : Char → Bool)
    (hall : ∀ c ∈ h, p c = true) (hq : p q = false) :
    containsChar q h = false := by
  unfold containsChar
  refine List.any_eq_false.mpr fun c hc => ?_
  intro hbeq
  rw [beq_iff_eq] at hbeq
  subst hbeq
  rw [hall c hc] at hq
  cases hq

theorem digitThen_eq_false (isD : Char → Bool) (units : List Char) :
    ∀ l : List Char, (∀ c ∈ l, isD c = false) →
      digitThen isD units l = false := by
  intro l
  induction l with
  | nil => intro _; rfl
  | cons a rest ih =>
    intro h
    cases rest with
    | nil => rfl
    | cons b bs =>
      have ha : isD a = false := h a (List.mem_cons_self _ _)
      simp only [digitThen, ha, Bool.false_and, Bool.false_or]
      exact ih fun c hc => h c (List.mem_cons_of_mem _ hc)

theorem emojiPlain_not_digit {c : Char} (h : emojiPlain c = true) :
    isAsciiDigit c = false ∧ isCircledDigit c = false := by
  simp only [emojiPlain, Bool.and_eq_true, isEmojiChar, decide_eq_true_eq,
    Bool.not_eq_true', isCircledDigit, decide_eq_false_iff_not] at h
  obtain ⟨h1, h2⟩ := h
  refine ⟨?_, ?_⟩ <;>
    simp only [isAsciiDigit, isCircledDigit, decide_eq_false_iff_not] <;>
    omega

theorem emojiPlain_lower {c : Char} (h : emojiPlain c = true) :
    lowerAscii c = c := by
  simp only [emojiPlain, Bool.and_eq_true, isEmojiChar, decide_eq_true_eq,
    Bool.not_eq_true', isCircledDigit, decide_eq_false_iff_not] at h
  obtain ⟨h1, h2⟩ := h
  unfold lowerAscii
  rw [if_neg (by omega)]

theorem all_lower_emojiPlain {t : List Char}
    (h : ∀ c ∈ t, emojiPlain c = true) :
    ∀ c ∈ t.map lowerAscii, emojiPlain c = true := by
  intro c hc
  rcases List.mem_map.mp hc with ⟨d, hd, rfl⟩
  rw [emojiPlain_lower (h d hd)]
  exact h d hd

theorem firstLine_subset {t : List Char} : ∀ c ∈ firstLine t, c ∈ t :=
  fun _ hc => (List.takeWhile_sublist _).subset hc

theorem classify_opening_emoji {l : List Char}
    (h : ∀ c ∈ l, emojiPlain c = true) :
    classify_opening_pattern l = .other := by
  by_cases hl : l = []
  · subst hl; rfl
  · have hq : hasQuestionMark l = false := by
      unfold hasQuestionMark
      rw [containsChar_eq_false '？' l emojiPlain h (by decide),
        containsChar_eq_false '?' l emojiPlain h (by decide)]
      rfl
    have hd : hasDigitLead l = false := by
      unfold hasDigitLead
      rw [digitThen_eq_false isAsciiDigit ['つ', '個', '選'] l
        (fun c hc => (emojiPlain_not_digit (h c hc)).1)]
      cases l with
      | nil => rfl
      | cons a rest =>
        have ha := emojiPlain_not_digit (h a (List.mem_cons_self _ _))
        simp [ha.1, ha.2]
    have hlow := all_lower_emojiPlain h
    have hp : hasProvokeWord l = false :=
      containsAny_eq_false aoriWords _ emojiPlain hlow (by decide)
    have he : hasEmpathyWord l = false :=
      containsAny_eq_false kyokanWords _ emojiPlain hlow (by decide)
    have ha : hasAssertiveWord l = false :=
      containsAny_eq_false danteiWords _ emojiPlain h (by decide)
    have hc : hasCalloutWord l = false :=
      containsAny_eq_false yobikakeWords _ emojiPlain hlow (by decide)
    unfold classify_opening_pattern
    rw [if_neg hl, if_neg (by simp [hq]), if_neg (by simp [hd]),
      if_neg (by simp [hp]), if_neg (by simp [he]), if_neg (by simp [ha]),
      if_neg (by simp [hc])]

theorem classify_category_emoji {t : List Char}
    (h : ∀ c ∈ t, emojiPlain c = true) :
    classify_category t = .other := by
  have hlow := all_lower_emojiPlain h
  simp only [classify_category]
  rw [containsAny_eq_false achievementWords _ emojiPlain hlow (by decide),
    containsAny_eq_false howtoWords _ emojiPlain hlow (by decide),
    containsAny_eq_false experienceWords _ emojiPlain hlow (by decide),
    containsAny_eq_false problemWords _ emojiPlain hlow (by decide),
    containsAny_eq_false toolWords _ emojiPlain hlow (by decide),
    containsAny_eq_false newsWords _ emojiPlain hlow (by decide)]
  rfl

/-! ## C8 -/

/-- C8 counterexample: the check-mark character U+2705 is counted as an
emoji by `EMOJI_PATTERN`, yet a text consisting only of it is classified
as the digit-led opening class (the `[①-➓]` class of the digit rule
covers every code point up to U+2793), receiving 20 opening points in v1
rather than the その他 minimum of 5. -/
theorem emoji_only_digit_led :
    isEmojiChar '✅' = true ∧
    emoji_runs ['✅'] = 1 ∧
    classify_opening_pattern ['✅'] = .digitLead ∧
    classify_opening_pattern ['✅'] ≠ .other ∧
    factorValue (calculate_buzz_score ['✅']) .opening = 20 := by decide

/-- C8 amended: for every text consisting only of emoji characters
outside the U+2460 to U+2793 overlap with the `[①-➓]` digit class (and
containing no Japanese words), `classify_opening_pattern` returns その他
and `classify_category` returns その他; the v1 scorer then assigns 5
opening points and 5 category points (each the minimum of its v1 table),
and the v2 scorer assigns 5 category points (the minimum of its category
table) but 10 opening points, which is not the minimum of the v2 opening
table (呼びかけ is worth 5). -/
theorem emoji_only_text_buckets (t : List Char) (pd : Option (List Char))
    (h : ∀ c ∈ t, emojiPlain c = true) :
    classify_opening_pattern (firstLine t) = .other ∧
    classify_category t = .other ∧
    factorValue (calculate_buzz_score t) .opening = 5 ∧
    factorValue (calculate_buzz_score t) .category = 5 ∧
    factorValue (calculate_buzz_score_v2 t pd) .opening = 10 ∧
    factorValue (calculate_buzz_score_v2 t pd) .category = 5 ∧
    pattern_scores_v2 .callout = 5 := by
  have hfl : ∀ c ∈ firstLine t, emojiPlain c = true :=
    fun c hc => h c (firstLine_subset c hc)
  have h1 := classify_opening_emoji hfl
  have h2 := classify_category_emoji h
  refine ⟨h1, h2, ?_, ?_, ?_, ?_, rfl⟩
  · rw [factorValue_v1_opening, h1]; rfl
  · rw [factorValue_v1_category, h2]; rfl
  · rw [factorValue_v2_opening, h1]; rfl
  · rw [factorValue_v2_category, h2]; rfl

/-- Witness for the C8 amended theorem at the one-emoji text U+1F600. -/
theorem emoji_only_text_buckets_witness :
    factorValue (calculate_buzz_score_v2 ['😀'] none) .opening = 10 :=
  (emoji_only_text_buckets ['😀'] none (by decide)).2.2.2.2.1

/-! ## C5 -/

/-- C5 counterexample: `filter_data` collapses two rows of the same
account even when their texts differ (its de-duplication key is the
account alone, not the `(account, text)` pair), and the insertion loop of
`import_file` keeps the first of two rows with identical
`(account, text)`, which here has the lower like count (3, not 9). -/
theorem dedup_not_by_account_text_pair :
    (filter_data [⟨"u".data, "abc".data, 5⟩, ⟨"u".data, "xyz".data, 3⟩]).1 =
      [⟨"u".data, "abc".data, 5⟩] ∧
    ("abc".data : List Char) ≠ "xyz".data ∧
    insert_posts [] [⟨"a".data, "t".data, 3, 0, 0, 0, [], []⟩,
        ⟨"a".data, "t".data, 9, 0, 0, 0, [], []⟩] =
      [⟨"a".data, "t".data, 3, 0, 0, 0, [], []⟩] := by decide

/-- C5 amended: `filter_data` de-duplicates by account alone, keeping the
highest-like-count row of each account; in particular, given two rows
with identical `(account, text)` but different like counts (and texts
passing the keyword filter) it keeps exactly the higher-likes row,
whichever order they appear in.  The insertion loop of `import_file`
separately skips a row whose `(text, account)` pair is already stored,
keeping the first such row regardless of like counts. -/
theorem dedup_keeps_highest_per_account (r1 r2 : Row)
    (huser : r1.user = r2.user)
    (hk1 : should_exclude r1.text = false)
    (hk2 : should_exclude r2.text = false)
    (hlt : r2.likes < r1.likes) :
    (filter_data [r1, r2]).1 = [r1] ∧ (filter_data [r2, r1]).1 = [r1] ∧
    ∀ s1 s2 : NRow, s1.text = s2.text → s1.account = s2.account →
      insert_posts [] [s1, s2] = [s1] := by
  have hsort1 : sortDesc [r1, r2] = [r1, r2] := by
    simp only [sortDesc, insertDesc, if_pos hlt]
  have hsort2 : sortDesc [r2, r1] = [r1, r2] := by
    simp only [sortDesc, insertDesc, if_neg (by omega : ¬r1.likes < r2.likes)]
  have hdedup : dedupByUser [] [r1, r2] = [r1] := by
    simp only [dedupByUser, List.contains_cons, List.not_mem_nil,
      List.elem_nil, Bool.or_false, if_neg Bool.false_ne_true]
    rw [← huser]
    simp [dedupByUser]
  refine ⟨?_, ?_, ?_⟩
  · simp only [filter_data, filter_keywords, List.filter, hk1, hk2,
      Bool.not_false, hsort1, hdedup]
  · simp only [filter_data, filter_keywords, List.filter, hk1, hk2,
      Bool.not_false, hsort2, hdedup]
  · intro s1 s2 ht ha
    simp only [insert_posts, List.any_nil, List.any_cons, Bool.if_false_left,
      ← ht, ← ha, beq_self_eq_true, Bool.and_self, Bool.or_false]
    simp [insert_posts]

/-- Witness for the C5 amended theorem: two rows of one account with the
same text and like counts 7 and 2. -/
theorem dedup_keeps_highest_per_account_witness :
    (filter_data [⟨"u".data, "t".data, 7⟩, ⟨"u".data, "t".data, 2⟩]).1 =
      [⟨"u".data, "t".data, 7⟩] :=
  (dedup_keeps_highest_per_account ⟨"u".data, "t".data, 7⟩
    ⟨"u".data, "t".data, 2⟩ rfl (by decide) (by decide) (by decide)).1

/-! ## C9 -/

/-- C9: `normalize_df` raises a value error (modelled as `.error` carrying
the column list) exactly when none of the accepted text-column aliases is
among the input columns; when a text alias is present it returns a row
list without raising, whatever other columns are missing. -/
theorem normalize_df_text_column (df : RawDF) (sf : List Char) :
    ((∀ a ∈ text_aliases, df.cols.contains a = false) →
      normalize_df df sf = .error df.cols) ∧
    ((∃ a ∈ text_aliases, df.cols.contains a = true) →
      ∃ rs, normalize_df df sf = .ok rs) := by
  constructor
  · intro h
    have hnone : firstAlias text_aliases df.cols = none := by
      unfold firstAlias
      refine List.find?_eq_none.mpr fun a ha => ?_
      rw [h a ha]
      exact Bool.false_ne_true
    simp only [normalize_df, hnone]
  · intro h
    have hsome : (firstAlias text_aliases df.cols).isSome := by
      unfold firstAlias
      exact List.find?_isSome.mpr (by simpa using h)
    obtain ⟨b, hb⟩ := Option.isSome_iff_exists.mp hsome
    cases hres : normalize_df df sf with
    | ok rs => exact ⟨rs, rfl⟩
    | error e =>
      rw [normalize_df, hb] at hres
      cases hres

/-- Witness for C9: a one-column frame without any text alias errors out,
and a frame with the 本文 column normalizes successfully. -/
theorem normalize_df_text_column_witness :
    normalize_df ⟨["likes".data], [[("likes".data, .num 3)]]⟩ [] =
      .error ["likes".data] ∧
    ∃ rs, normalize_df ⟨["本文".data], [[("本文".data, .str "hi".data)]]⟩ []
      = .ok rs :=
  ⟨(normalize_df_text_column ⟨["likes".data], [[("likes".data, .num 3)]]⟩
      []).1 (by decide),
   (normalize_df_text_column ⟨["本文".data], [[("本文".data, .str "hi".data)]]⟩
      []).2 ⟨"本文".data, by decide, by decide⟩⟩
